import Mathlib

/-!
Verification development for the GpuScan task pipeline of PG-Strom
(`src/gpuscan.c`).  The definitions below are a shallow embedding of the
functions of that file: pure helpers become Lean functions, the stateful
submission / callback routines become explicit state-passing functions,
and the commands enqueued on the CUDA stream are recorded as an explicit
trace.  External collaborators (PostgreSQL list primitives, the
expression transpiler, the data-store reader) are either embedded from
their documented semantics or abstracted as function parameters; each
such spot is marked in the comments.
-/

namespace PgStrom

/-! ## form/deform of GpuScanInfo (gpuscan.c:57-121)

`GpuScanInfo` is the private payload of a GpuScan `CustomScan` node.
PostgreSQL `Node` lists (`func_defs`, `used_params`, `used_vars`,
`dev_quals`) carry opaque expression nodes; they are embedded
polymorphically as `List α`.  `cl_int` fields are embedded as `Int`. -/

structure GpuScanInfo (α : Type) where
  kern_source : Option String
  extra_flags : Int
  func_defs : List α
  used_params : List α
  used_vars : List α
  dev_quals : List α
  base_fixed_width : Int
  proj_fixed_width : Int
  proj_extra_width : Int
deriving DecidableEq

/-- A PostgreSQL `Node` value as stored in the private lists:
`makeString` (possibly of a NULL char pointer), `makeInteger`,
or a bare sub-list. -/
inductive NodeVal (α : Type) where
  | vstr : Option String → NodeVal α
  | vint : Int → NodeVal α
  | vlist : List α → NodeVal α
deriving DecidableEq

/-- `strVal` projection; junk (NULL) on a non-string node. -/
def strVal {α : Type} (n : NodeVal α) : Option String :=
  match n with
  | .vstr s => s
  | _ => none

/-- `intVal` projection; junk (0) on a non-integer node. -/
def intVal {α : Type} (n : NodeVal α) : Int :=
  match n with
  | .vint i => i
  | _ => 0

/-- Reading a stored sub-list back out of a node position. -/
def listVal {α : Type} (n : NodeVal α) : List α :=
  match n with
  | .vlist l => l
  | _ => []

/-- The two node lists of a `CustomScan` used by form/deform. -/
structure CustomScanLists (α : Type) where
  custom_private : List (NodeVal α)
  custom_exprs : List (NodeVal α)
deriving DecidableEq

/-- gpuscan.c:79-98 `form_gpuscan_info`: appends, in order,
kern_source / extra_flags / func_defs / base_fixed_width /
proj_fixed_width / proj_extra_width to `custom_private` and
used_params / used_vars / dev_quals to `custom_exprs`. -/
def form_gpuscan_info {α : Type} (gs_info : GpuScanInfo α) : CustomScanLists α :=
  { custom_private :=
      [ NodeVal.vstr gs_info.kern_source
      , NodeVal.vint gs_info.extra_flags
      , NodeVal.vlist gs_info.func_defs
      , NodeVal.vint gs_info.base_fixed_width
      , NodeVal.vint gs_info.proj_fixed_width
      , NodeVal.vint gs_info.proj_extra_width ]
  , custom_exprs :=
      [ NodeVal.vlist gs_info.used_params
      , NodeVal.vlist gs_info.used_vars
      , NodeVal.vlist gs_info.dev_quals ] }

/-- gpuscan.c:100-121 `deform_gpuscan_info`: reads the fields back by
position (`list_nth` with post-incremented indices). -/
def deform_gpuscan_info {α : Type} (cscan : CustomScanLists α) : GpuScanInfo α :=
  { kern_source := strVal (cscan.custom_private.getD 0 (NodeVal.vint 0))
  , extra_flags := intVal (cscan.custom_private.getD 1 (NodeVal.vint 0))
  , func_defs := listVal (cscan.custom_private.getD 2 (NodeVal.vint 0))
  , used_params := listVal (cscan.custom_exprs.getD 0 (NodeVal.vint 0))
  , used_vars := listVal (cscan.custom_exprs.getD 1 (NodeVal.vint 0))
  , dev_quals := listVal (cscan.custom_exprs.getD 2 (NodeVal.vint 0))
  , base_fixed_width := intVal (cscan.custom_private.getD 3 (NodeVal.vint 0))
  , proj_fixed_width := intVal (cscan.custom_private.getD 4 (NodeVal.vint 0))
  , proj_extra_width := intVal (cscan.custom_private.getD 5 (NodeVal.vint 0)) }

/-! ## Clause distribution in create_gpuscan_plan (gpuscan.c:527-596)

A `RestrictInfo` is embedded as its bare clause plus its
`pseudoconstant` flag; `pgstrom_codegen_available_expression`
(codegen.c, an external collaborator of this file) is abstracted as a
boolean predicate parameter. -/

structure RestrictInfo (β : Type) where
  clause : β
  pseudoconstant : Bool
deriving DecidableEq

/-- PostgreSQL `extract_actual_clauses(list, pseudoconstant)`
(external collaborator, embedded from its documented semantics):
keeps the bare clause of each RestrictInfo whose `pseudoconstant`
flag equals the argument. -/
def extract_actual_clauses {β : Type} (l : List (RestrictInfo β)) (pc : Bool) :
    List β :=
  (l.filter (fun r => r.pseudoconstant == pc)).map RestrictInfo.clause

/-- The two qualifier lists produced by `create_gpuscan_plan`:
`host_quals` becomes `cscan->scan.plan.qual`, `dev_quals` goes into
the `GpuScanInfo`. -/
structure GpuScanPlanQuals (β : Type) where
  host_quals : List β
  dev_quals : List β
deriving DecidableEq

/-- gpuscan.c:548-596 (clause distribution part of `create_gpuscan_plan`):
each clause goes to `dev_quals` when
`pgstrom_codegen_available_expression` accepts it, to `host_quals`
otherwise; both RestrictInfo lists are then reduced to bare
expressions by `extract_actual_clauses(..., false)`
("ignore pseudoconstants"), and the reduced host list is stored as
the plan qual. -/
def create_gpuscan_plan_quals {β : Type} (available : β → Bool)
    (clauses : List (RestrictInfo β)) : GpuScanPlanQuals β :=
  let host_ri := clauses.filter (fun r => !(available r.clause))
  let dev_ri := clauses.filter (fun r => available r.clause)
  { host_quals := extract_actual_clauses host_ri false
  , dev_quals := extract_actual_clauses dev_ri false }

/-! ## Predicate code generation (gpuscan.c:480-525)

`gpuscan_codegen_exec_quals` builds the source text of the device
function `gpuscan_quals_eval`.  `pgstrom_codegen_expression`,
`pgstrom_codegen_param_declarations` and
`pgstrom_codegen_var_declarations` live in codegen.c (external to this
file) and are abstracted as parameters.  Expression nodes are opaque
`Nat` identifiers.  Braces that are text of the generated program are
written with escapes. -/

def gpuscan_codegen_exec_quals (codegen_expression : List Nat → String)
    (param_decls var_decls : String) (dev_quals : List Nat) : String :=
  let body :=
    "STATIC_FUNCTION(cl_bool)\n" ++
    "gpuscan_quals_eval(kern_context *kcxt,\n" ++
    "                   kern_data_store *kds,\n" ++
    "                   size_t kds_index)\n" ++
    "\x7b\n"
  let body :=
    if dev_quals ≠ [] then
      body ++ param_decls ++ var_decls ++
        "\n" ++ "  return EVAL(" ++ codegen_expression dev_quals ++ ");\n"
    else
      body ++ "  return true;\n"
  body ++ "\x7d\n"

/-- The source text generated when there are no device qualifiers:
a `gpuscan_quals_eval` whose body is exactly `return true;`. -/
def gpuscan_quals_eval_noquals : String :=
  "STATIC_FUNCTION(cl_bool)\n" ++
  "gpuscan_quals_eval(kern_context *kcxt,\n" ++
  "                   kern_data_store *kds,\n" ++
  "                   size_t kds_index)\n" ++
  "\x7b\n" ++
  "  return true;\n" ++
  "\x7d\n"

/-! ## Projection code generation: variable-length buffer accounting
(gpuscan.c:902-1065, KDS_FORMAT_SLOT branch of
`gpuscan_codegen_projection`)

For each non-Var target entry the generated program contains a
size-accumulation step (step.4: `vl_len = TYPEALIGN(..) + ..` guarded
by `if (!temp_N_v.isnull)`) and a write step (step.5:
`vl_buf = TYPEALIGN(..); ...; vl_buf += ..` under the same null
check).  The embedding classifies each target entry by the case the
generator takes: NUMERICOID, fixed-length indirect
(`!type_byval, type_length > 0`), or by-value (no variable-length
use).  `numericEntry.len` stands for the value of
`pg_numeric_to_varlena` for the row's datum (the same call appears in
both generated steps). -/

/-- One non-Var target entry of `scan_tlist`, as classified by the
generator, together with the per-row data the generated code branches
on (null flag, numeric varlena length). -/
inductive ProjEntry where
  | numericEntry : (len : Nat) → (isnull : Bool) → ProjEntry
  | fixedEntry : (align : Nat) → (len : Nat) → (isnull : Bool) → ProjEntry
  | byvalEntry : (isnull : Bool) → ProjEntry
deriving DecidableEq

def sizeof_cl_uint : Nat := 4
def sizeof_cl_int : Nat := 4

/-- C macro `TYPEALIGN(a, x)`: round `x` up to a multiple of `a`. -/
def typealign (a x : Nat) : Nat := ((x + a - 1) / a) * a

/-- One entry of the generated size-accumulation pass (step.4):
`if (!isnull) vl_len = TYPEALIGN(sizeof(cl_uint), vl_len) + numeric_len`
for NUMERICOID, `vl_len = TYPEALIGN(type_align, vl_len) + type_length`
for fixed-length indirect types, nothing for by-value types. -/
def vlbufSizeStep (e : ProjEntry) (vl_len : Nat) : Nat :=
  match e with
  | .numericEntry len isnull =>
      if !isnull then typealign sizeof_cl_uint vl_len + len else vl_len
  | .fixedEntry a len isnull =>
      if !isnull then typealign a vl_len + len else vl_len
  | .byvalEntry _ => vl_len

/-- The whole size-accumulation pass over the target list, in
target-list order (`vl_len` starts at 0 in the generated code). -/
def vlbufSizePass (tlist : List ProjEntry) (vl_len : Nat) : Nat :=
  match tlist with
  | [] => vl_len
  | e :: rest => vlbufSizePass rest (vlbufSizeStep e vl_len)

/-- One entry of the generated write pass (step.5), as the position of
`vl_buf` after the entry: `vl_buf = TYPEALIGN(sizeof(cl_int), vl_buf);
vl_buf += pg_numeric_to_varlena(...)` for NUMERICOID,
`vl_buf = TYPEALIGN(type_align, vl_buf); vl_buf += type_length` for
fixed-length indirect types, no advance for by-value types; all under
the same `if (!temp_N_v.isnull)` guard. -/
def vlbufWriteStep (e : ProjEntry) (vl_buf : Nat) : Nat :=
  match e with
  | .numericEntry len isnull =>
      if !isnull then typealign sizeof_cl_int vl_buf + len else vl_buf
  | .fixedEntry a len isnull =>
      if !isnull then typealign a vl_buf + len else vl_buf
  | .byvalEntry _ => vl_buf

/-- The whole write pass over the target list, in the same
target-list order, returning the final `vl_buf` position. -/
def vlbufWritePass (tlist : List ProjEntry) (vl_buf : Nat) : Nat :=
  match tlist with
  | [] => vl_buf
  | e :: rest => vlbufWritePass rest (vlbufWriteStep e vl_buf)

/-- The alignment the generator emits for an entry (4 =
`sizeof(cl_uint)` for NUMERICOID, `type_align` for fixed-length
indirect types; by-value entries touch no buffer). -/
def entryAlign (e : ProjEntry) : Nat :=
  match e with
  | .numericEntry _ _ => sizeof_cl_uint
  | .fixedEntry a _ _ => a
  | .byvalEntry _ => 1

/-- `MAXIMUM_ALIGNOF`: the generated code maxaligns the reserved
per-row total and carves `vl_buf` out of maxaligned offsets. -/
def maximum_alignof : Nat := 8

/-! ## Task creation (gpuscan.c:1607-1681 `create_pgstrom_gpuscan_task`)
and result drain (gpuscan.c:1747-1799 `gpuscan_next_tuple`) -/

inductive StoreFormat where
  | row
  | slot
deriving DecidableEq

/-- A `pgstrom_data_store` as far as the claims need it: format tag
and current row count (`kds->nitems`). -/
structure DataStore where
  format : StoreFormat
  nitems : Nat
deriving DecidableEq

/-- `kern_resultbuf` header as set up by task creation (the struct is
`memset(0)` first, then `nrels`, and either `nrooms` or
`all_visible` are assigned). -/
structure KernResultbuf where
  nrels : Nat
  nrooms : Nat
  all_visible : Bool
deriving DecidableEq

structure GpuscanTask where
  pds_src_nitems : Nat
  pds_dst : Option DataStore
  kresults : KernResultbuf
deriving DecidableEq

/-- gpuscan.c:1607-1681 `create_pgstrom_gpuscan_task`: in row format
with no device projection the destination buffer is NULL (the comment
there says the visible rows are then meant to be referenced out of
`pds_src` via `kern_resultbuf`); otherwise a fresh (empty) row or
slot store is created.  `kresults` gets `nrooms = nitems` when device
qualifiers exist, else `all_visible = true`.  Device qualifier
expressions are opaque `Nat` identifiers (`gss->dev_quals`). -/
def create_pgstrom_gpuscan_task (be_row_format dev_projection : Bool)
    (dev_quals : List Nat) (src_nitems : Nat) : GpuscanTask :=
  let pds_dst : Option DataStore :=
    if be_row_format then
      if !dev_projection then none
      else some { format := StoreFormat.row, nitems := 0 }
    else some { format := StoreFormat.slot, nitems := 0 }
  let kresults : KernResultbuf :=
    if dev_quals ≠ [] then
      { nrels := 1, nrooms := src_nitems, all_visible := false }
    else
      { nrels := 1, nrooms := 0, all_visible := true }
  { pds_src_nitems := src_nitems, pds_dst := pds_dst, kresults := kresults }

/-- Errors a C routine can hit; `nullPointerDeref` stands for a read
through a NULL pointer (undefined behaviour, in practice a crash). -/
inductive CError where
  | nullPointerDeref
  | fetchFailed
deriving DecidableEq

/-- gpuscan.c:1747-1799 `gpuscan_next_tuple`: reads
`pds_dst = gpuscan->pds_dst` and immediately evaluates
`gss->gts.curr_index < pds_dst->kds->nitems` — a dereference of
`pds_dst` before any NULL check.  When the index is in range it
fetches that row and post-increments the index; otherwise it returns
a NULL slot and leaves the index alone.  The returned row is
identified by its index. -/
def gpuscan_next_tuple (pds_dst : Option DataStore) (curr_index : Nat) :
    Except CError (Option Nat × Nat) :=
  match pds_dst with
  | none => Except.error CError.nullPointerDeref
  | some kds =>
      if curr_index < kds.nitems then Except.ok (some curr_index, curr_index + 1)
      else Except.ok (none, curr_index)

/-! ## Chunk production (gpuscan.c:1683-1745 `gpuscan_next_chunk`)

`pgstrom_data_store_insert_block` (datastore.c, not part of this
file) is abstracted by two parameters, following the spec's
`read_chunk` contract: `vis b` is the number of visible rows block
`b` contributes when it is inserted, and `fits b nitems` decides
whether the insertion succeeds (the C function returns a negative
value — without inserting — when the block does not fit the chunk
anymore).  The data store itself is represented by its row count. -/

/-- The inner fill loop of `gpuscan_next_chunk`:
`while (curr_blknum < last_blknum && insert_block(...) >= 0)
curr_blknum++;`.  Returns the new block cursor and the row count of
the chunk. -/
def fillChunk (vis : Nat → Nat) (fits : Nat → Nat → Bool)
    (curr last nitems : Nat) : Nat × Nat :=
  if _h : curr < last then
    if fits curr nitems then fillChunk vis fits (curr + 1) last (nitems + vis curr)
    else (curr, nitems)
  else (curr, nitems)
termination_by last - curr
decreasing_by omega

/-- The outer retry loop of `gpuscan_next_chunk`
(`while (!gpuscan && !end_of_scan)`): build a fresh chunk, fill it;
a non-empty chunk becomes a task; an empty chunk ends the scan only
when the cursor has reached the last block, otherwise the loop
retries.  `fuel` bounds the number of retries (the C loop has no
bound; the theorems show one pass suffices when every block fits an
empty chunk).  Result: the new task's row count, if any, and the
final block cursor. -/
def gpuscan_next_chunk_loop (vis : Nat → Nat) (fits : Nat → Nat → Bool)
    (curr last : Nat) : Nat → Option Nat × Nat
  | 0 => (none, curr)
  | fuel + 1 =>
      let r := fillChunk vis fits curr last 0
      if r.2 > 0 then (some r.2, r.1)
      else if last ≤ r.1 then (none, r.1)
      else gpuscan_next_chunk_loop vis fits r.1 last fuel

/-- gpuscan.c:1683-1745 `gpuscan_next_chunk`: returns NULL at once
when `curr_blknum > last_blknum`, otherwise runs the retry loop. -/
def gpuscan_next_chunk (vis : Nat → Nat) (fits : Nat → Nat → Bool)
    (curr last : Nat) : Option Nat × Nat :=
  if last < curr then (none, curr)
  else gpuscan_next_chunk_loop vis fits curr last (last + 1 - curr)

/-! ## Per-task CUDA resources and their cleanup
(gpuscan.c:1953-1970 `gpuscan_cleanup_cuda_resources`)

Event handles are `Option Nat` (`none` = NULL `CUevent`); function
pointers and device pointers are `Nat` with 0 = NULL.  The calls the
cleanup makes into the driver are recorded as `CudaEffect`s. -/

structure GpuscanResources where
  ev_dma_send_start : Option Nat
  ev_dma_send_stop : Option Nat
  ev_dma_recv_start : Option Nat
  ev_dma_recv_stop : Option Nat
  kern_exec_quals : Nat
  kern_dev_proj : Nat
  m_gpuscan : Nat
  m_kds_src : Nat
  m_kds_dst : Nat
deriving DecidableEq

/-- A freshly created task: `MemoryContextAllocZero` leaves every
handle NULL/zero. -/
def initResources : GpuscanResources :=
  { ev_dma_send_start := none, ev_dma_send_stop := none
  , ev_dma_recv_start := none, ev_dma_recv_stop := none
  , kern_exec_quals := 0, kern_dev_proj := 0
  , m_gpuscan := 0, m_kds_src := 0, m_kds_dst := 0 }

/-- Observable calls into the CUDA driver made while releasing a
task's resources. -/
inductive CudaEffect where
  | eventDestroy : Nat → CudaEffect
  | memFree : Nat → CudaEffect
deriving DecidableEq

/-- Modelled from the spec: the `CUDA_EVENT_DESTROY` macro
(pg_strom.h, not under src/) — per the spec's release contract it
frees the event when the handle is non-NULL and "nulls every handle
after freeing it so a second call is a no-op".  Returns the new
handle value (always NULL) and the destroy calls performed. -/
def cudaEventDestroy (h : Option Nat) : Option Nat × List CudaEffect :=
  (none,
   match h with
   | some e => [CudaEffect.eventDestroy e]
   | none => [])

/-- gpuscan.c:1953-1970 `gpuscan_cleanup_cuda_resources`: destroys the
four events (recv_stop, recv_start, send_stop, send_start in that
order), frees `m_gpuscan` when non-NULL (`m_kds_src`/`m_kds_dst` are
offsets into that one allocation and are not freed separately), then
nulls every pointer field. -/
def gpuscan_cleanup_cuda_resources (r : GpuscanResources) :
    GpuscanResources × List CudaEffect :=
  let d4 := cudaEventDestroy r.ev_dma_recv_stop
  let d3 := cudaEventDestroy r.ev_dma_recv_start
  let d2 := cudaEventDestroy r.ev_dma_send_stop
  let d1 := cudaEventDestroy r.ev_dma_send_start
  let freeFx : List CudaEffect :=
    if r.m_gpuscan ≠ 0 then [CudaEffect.memFree r.m_gpuscan] else []
  ( { ev_dma_send_start := d1.1, ev_dma_send_stop := d2.1
    , ev_dma_recv_start := d3.1, ev_dma_recv_stop := d4.1
    , kern_exec_quals := 0, kern_dev_proj := 0
    , m_gpuscan := 0, m_kds_src := 0, m_kds_dst := 0 }
  , d4.2 ++ d3.2 ++ d2.2 ++ d1.2 ++ freeFx )

/-! ## Asynchronous submission
(gpuscan.c:2070-2287 `__pgstrom_process_gpuscan`)

The commands the routine enqueues on the task's CUDA stream are
recorded as a trace.  Inputs collect the data the routine branches
on: whether the two `cuModuleGetFunction` lookups succeed, whether
`gss->dev_quals` is non-NIL, whether `pds_dst` exists, whether
per-task perfmon is enabled, and the `gpuMemAlloc` result (0 = NULL =
allocation failure).  The remaining CUDA calls are embedded on their
success path (each failure in the C code raises `elog(ERROR)` and is
outside every claim below). -/

inductive DeviceBuf where
  | ctrlBlock
  | kdsSrc
  | kdsDstHead
  | kdsDstFull
deriving DecidableEq

inductive KernFn where
  | execQuals
  | devProj
deriving DecidableEq

inductive EvName where
  | dmaSendStart
  | dmaSendStop
  | dmaRecvStart
  | dmaRecvStop
deriving DecidableEq

/-- One command enqueued on the task's CUDA stream. -/
inductive StreamCmd where
  | memcpyHtoD : DeviceBuf → StreamCmd
  | launchKernel : KernFn → StreamCmd
  | memcpyDtoH : DeviceBuf → StreamCmd
  | eventRecord : EvName → StreamCmd
  | addCallback : StreamCmd
deriving DecidableEq

def isEventRecordCmd (c : StreamCmd) : Bool :=
  match c with
  | .eventRecord _ => true
  | _ => false

/-- Modelled from the spec: the `CUDA_EVENT_RECORD` macro
(pg_strom.h, not under src/) enqueues a timing marker on the task's
stream when per-task performance monitoring is enabled, and does
nothing otherwise. -/
def cudaEventRecordCmds (pfm_enabled : Bool) (e : EvName) : List StreamCmd :=
  if pfm_enabled then [StreamCmd.eventRecord e] else []

structure ProcessInput where
  moduleGetOk : Bool
  hasDevQuals : Bool
  hasDst : Bool
  pfmEnabled : Bool
  allocHandle : Nat
  gpuscanLen : Nat
  kdsSrcLen : Nat
deriving DecidableEq

structure ProcessResult where
  status : Bool
  trace : List StreamCmd
  res : GpuscanResources
  effects : List CudaEffect
deriving DecidableEq

/-- gpuscan.c:2070-2287 `__pgstrom_process_gpuscan` on a freshly
created task: look up the two kernel functions (an `elog(ERROR)` —
embedded as `Except.error` — if that fails); allocate one device
block and carve `m_kds_src` / `m_kds_dst` out of it, jumping to
`out_of_resource` (cleanup, return false) when `gpuMemAlloc` returns
NULL; create the four events when perfmon is on; then enqueue, in
program order: send-start marker, copy-in of the control/param block,
copy-in of the source store, copy-in of the destination store header
if present, send-stop marker, the `gpuscan_exec_quals` launch only
when device qualifiers exist, the projection launch only when a
destination exists, recv-start marker, copy-out of the control block,
copy-out of the full destination store if present, recv-stop marker,
and the completion callback; finally return true. -/
def __pgstrom_process_gpuscan (inp : ProcessInput) : Except String ProcessResult :=
  if inp.moduleGetOk = false then Except.error "failed on cuModuleGetFunction"
  else
    let r1 : GpuscanResources :=
      { initResources with kern_exec_quals := 1, kern_dev_proj := 2 }
    let r2 := { r1 with m_gpuscan := inp.allocHandle }
    if inp.allocHandle = 0 then
      let cleaned := gpuscan_cleanup_cuda_resources r2
      Except.ok { status := false, trace := [], res := cleaned.1, effects := cleaned.2 }
    else
      let r3 := { r2 with
        m_kds_src := inp.allocHandle + inp.gpuscanLen
        m_kds_dst :=
          if inp.hasDst then inp.allocHandle + inp.gpuscanLen + inp.kdsSrcLen
          else 0 }
      let r4 :=
        if inp.pfmEnabled then
          { r3 with
            ev_dma_send_start := some 1
            ev_dma_send_stop := some 2
            ev_dma_recv_start := some 3
            ev_dma_recv_stop := some 4 }
        else r3
      let trace : List StreamCmd :=
        cudaEventRecordCmds inp.pfmEnabled EvName.dmaSendStart
        ++ [StreamCmd.memcpyHtoD DeviceBuf.ctrlBlock
          , StreamCmd.memcpyHtoD DeviceBuf.kdsSrc]
        ++ (if inp.hasDst then [StreamCmd.memcpyHtoD DeviceBuf.kdsDstHead] else [])
        ++ cudaEventRecordCmds inp.pfmEnabled EvName.dmaSendStop
        ++ (if inp.hasDevQuals then [StreamCmd.launchKernel KernFn.execQuals] else [])
        ++ (if inp.hasDst then [StreamCmd.launchKernel KernFn.devProj] else [])
        ++ cudaEventRecordCmds inp.pfmEnabled EvName.dmaRecvStart
        ++ [StreamCmd.memcpyDtoH DeviceBuf.ctrlBlock]
        ++ (if inp.hasDst then [StreamCmd.memcpyDtoH DeviceBuf.kdsDstFull] else [])
        ++ cudaEventRecordCmds inp.pfmEnabled EvName.dmaRecvStop
        ++ [StreamCmd.addCallback]
      Except.ok { status := true, trace := trace, res := r4, effects := [] }

/-- The stream trace of a submission (empty when the routine failed
or stopped before enqueueing anything). -/
def processTrace (inp : ProcessInput) : List StreamCmd :=
  match __pgstrom_process_gpuscan inp with
  | Except.ok r => r.trace
  | Except.error _ => []

/-- Transcribed from the claim (spec §4.3): the five-phase command
sequence — control block copy-in, input chunk copy-in, predicate
kernel when device qualifiers exist, projection kernel when a
destination chunk exists, control block copy-out plus full output
chunk copy-out when present, then the completion callback — and
nothing else. -/
def claimedCommandOrder (hasDevQuals hasDst : Bool) : List StreamCmd :=
  [StreamCmd.memcpyHtoD DeviceBuf.ctrlBlock, StreamCmd.memcpyHtoD DeviceBuf.kdsSrc]
  ++ (if hasDevQuals then [StreamCmd.launchKernel KernFn.execQuals] else [])
  ++ (if hasDst then [StreamCmd.launchKernel KernFn.devProj] else [])
  ++ [StreamCmd.memcpyDtoH DeviceBuf.ctrlBlock]
  ++ (if hasDst then [StreamCmd.memcpyDtoH DeviceBuf.kdsDstFull] else [])
  ++ [StreamCmd.addCallback]

/-- The claimed order amended by what the code actually enqueues in
addition: the copy-in of the destination store's header, right after
the input chunk copy-in, whenever a destination chunk exists. -/
def amendedCommandOrder (hasDevQuals hasDst : Bool) : List StreamCmd :=
  [StreamCmd.memcpyHtoD DeviceBuf.ctrlBlock, StreamCmd.memcpyHtoD DeviceBuf.kdsSrc]
  ++ (if hasDst then [StreamCmd.memcpyHtoD DeviceBuf.kdsDstHead] else [])
  ++ (if hasDevQuals then [StreamCmd.launchKernel KernFn.execQuals] else [])
  ++ (if hasDst then [StreamCmd.launchKernel KernFn.devProj] else [])
  ++ [StreamCmd.memcpyDtoH DeviceBuf.ctrlBlock]
  ++ (if hasDst then [StreamCmd.memcpyDtoH DeviceBuf.kdsDstFull] else [])
  ++ [StreamCmd.addCallback]

/-! ## Completion callback
(gpuscan.c:2003-2068 `pgstrom_respond_gpuscan`)

CUDA status codes and PG-Strom error codes share an `Int` space
(success is 0 in both).  `IsTransactionState()` is the
`in_transaction` argument.  The spinlock-guarded list surgery is
embedded as a pure update of the shared `GpuTaskState` fields; tasks
are identified by an id, the completed list keeps its head first. -/

def CUDA_SUCCESS : Int := 0
def CUDA_ERROR_INVALID_CONTEXT : Int := 201
def StromError_Success : Int := 0
def StromKernel_CudaRuntime : Int := 1

structure KernErrorbuf where
  errcode : Int
  kernel : Int
  lineno : Int
deriving DecidableEq

/-- The callback-relevant fields of a task: its host-side error slot
(`task.kerror`), the device-written error of its kernel control block
(`gpuscan->kern.kerror`), and whether its `chain` node is currently
linked into a task list (`chain.prev && chain.next`). -/
structure RespondTaskState where
  kerror : KernErrorbuf
  kern_kerror : KernErrorbuf
  chainLinked : Bool
deriving DecidableEq

/-- The shared `GpuTaskState` fields the callback touches under the
lock. -/
structure RespondGtsState where
  num_running_tasks : Int
  completed_tasks : List Nat
  num_completed_tasks : Nat
deriving DecidableEq

/-- gpuscan.c:2003-2068 `pgstrom_respond_gpuscan`: bail out at once on
`CUDA_ERROR_INVALID_CONTEXT` or outside a live transaction; otherwise
take `kern.kerror` as the task's error when the stream status is
`CUDA_SUCCESS`, else synthesize one from the CUDA status; then, under
the shared lock, unlink the task from the running list when linked
(decrementing `num_running_tasks`), push it at the tail of
`completed_tasks` on success and at the head on error, and increment
`num_completed_tasks`. -/
def pgstrom_respond_gpuscan (status : Int) (in_transaction : Bool)
    (task_id : Nat) (task : RespondTaskState) (gts : RespondGtsState) :
    RespondTaskState × RespondGtsState :=
  if status = CUDA_ERROR_INVALID_CONTEXT ∨ in_transaction = false then
    (task, gts)
  else
    let kerror :=
      if status = CUDA_SUCCESS then task.kern_kerror
      else { errcode := status, kernel := StromKernel_CudaRuntime, lineno := 0 }
    let gts1 :=
      if task.chainLinked then
        { gts with num_running_tasks := gts.num_running_tasks - 1 }
      else gts
    let gts2 :=
      if kerror.errcode = StromError_Success then
        { gts1 with
          completed_tasks := gts1.completed_tasks ++ [task_id]
          num_completed_tasks := gts1.num_completed_tasks + 1 }
      else
        { gts1 with
          completed_tasks := task_id :: gts1.completed_tasks
          num_completed_tasks := gts1.num_completed_tasks + 1 }
    ({ task with kerror := kerror, chainLinked := true }, gts2)

/-! ## Helper lemmas -/

theorem typealign_add (a p0 s : Nat) (ha : 0 < a) (hd : a ∣ p0) :
    typealign a (p0 + s) = p0 + typealign a s := by
  obtain ⟨k, hk⟩ := hd
  subst hk
  unfold typealign
  rw [Nat.add_assoc, Nat.add_sub_assoc (by omega : 1 ≤ s + a),
      Nat.mul_add_div ha, Nat.add_mul, Nat.mul_comm k a]

theorem vlbufStep_shift (e : ProjEntry) (p0 s : Nat)
    (hpos : 0 < entryAlign e) (hdvd : entryAlign e ∣ p0) :
    vlbufWriteStep e (p0 + s) = p0 + vlbufSizeStep e s := by
  cases e with
  | numericEntry len isnull =>
    have hd4 : (4 : Nat) ∣ p0 := by simpa [entryAlign, sizeof_cl_uint] using hdvd
    cases isnull with
    | true => simp [vlbufWriteStep, vlbufSizeStep]
    | false =>
      simp only [vlbufWriteStep, vlbufSizeStep, Bool.not_false, if_true,
                 sizeof_cl_int, sizeof_cl_uint]
      rw [typealign_add 4 p0 s (by norm_num) hd4, Nat.add_assoc]
  | fixedEntry a len isnull =>
    have ha : 0 < a := by simpa [entryAlign] using hpos
    have hd : a ∣ p0 := by simpa [entryAlign] using hdvd
    cases isnull with
    | true => simp [vlbufWriteStep, vlbufSizeStep]
    | false =>
      simp only [vlbufWriteStep, vlbufSizeStep, Bool.not_false, if_true]
      rw [typealign_add a p0 s ha hd, Nat.add_assoc]
  | byvalEntry isnull => rfl

theorem vlbufPass_shift (tlist : List ProjEntry) (p0 : Nat)
    (hal : ∀ e ∈ tlist, 0 < entryAlign e ∧ entryAlign e ∣ p0) :
    ∀ s, vlbufWritePass tlist (p0 + s) = p0 + vlbufSizePass tlist s := by
  induction tlist with
  | nil => intro s; rfl
  | cons e rest ih =>
    intro s
    have he := hal e (List.mem_cons_self e rest)
    have hrest : ∀ x ∈ rest, 0 < entryAlign x ∧ entryAlign x ∣ p0 :=
      fun x hx => hal x (List.mem_cons_of_mem e hx)
    show vlbufWritePass rest (vlbufWriteStep e (p0 + s))
        = p0 + vlbufSizePass rest (vlbufSizeStep e s)
    rw [vlbufStep_shift e p0 s he.1 he.2]
    exact ih hrest (vlbufSizeStep e s)

theorem fillChunk_snd_ge_fuel (vis : Nat → Nat) (fits : Nat → Nat → Bool)
    (last : Nat) : ∀ fuel curr nitems, last - curr ≤ fuel →
    nitems ≤ (fillChunk vis fits curr last nitems).2 := by
  intro fuel
  induction fuel with
  | zero =>
    intro curr nitems hf
    rw [fillChunk.eq_def, dif_neg (by omega : ¬ curr < last)]
  | succ n ih =>
    intro curr nitems hf
    rw [fillChunk.eq_def]
    by_cases h1 : curr < last
    · rw [dif_pos h1]
      by_cases h2 : fits curr nitems
      · rw [if_pos h2]
        have := ih (curr + 1) (nitems + vis curr) (by omega)
        omega
      · rw [if_neg h2]
    · rw [dif_neg h1]

theorem fillChunk_snd_ge (vis : Nat → Nat) (fits : Nat → Nat → Bool)
    (curr last nitems : Nat) :
    nitems ≤ (fillChunk vis fits curr last nitems).2 :=
  fillChunk_snd_ge_fuel vis fits last (last - curr) curr nitems (Nat.le_refl _)

theorem fillChunk_all_zero (vis : Nat → Nat) (fits : Nat → Nat → Bool)
    (last : Nat) (hfit : ∀ b, fits b 0 = true) :
    ∀ fuel curr, last - curr ≤ fuel → curr ≤ last →
    (∀ b, curr ≤ b → b < last → vis b = 0) →
    fillChunk vis fits curr last 0 = (last, 0) := by
  intro fuel
  induction fuel with
  | zero =>
    intro curr hf hcl hz
    have hce : curr = last := by omega
    rw [fillChunk.eq_def, dif_neg (by omega : ¬ curr < last), hce]
  | succ n ih =>
    intro curr hf hcl hz
    rw [fillChunk.eq_def]
    by_cases h1 : curr < last
    · rw [dif_pos h1, if_pos (hfit curr)]
      have hv : vis curr = 0 := hz curr (Nat.le_refl _) h1
      have := ih (curr + 1) (by omega) (by omega)
        (fun b hb1 hb2 => hz b (by omega) hb2)
      simpa [hv] using this
    · rw [dif_neg h1]
      have hce : curr = last := by omega
      rw [hce]

theorem fillChunk_zero_out (vis : Nat → Nat) (fits : Nat → Nat → Bool)
    (last : Nat) (hfit : ∀ b, fits b 0 = true) :
    ∀ fuel curr, last - curr ≤ fuel →
    (fillChunk vis fits curr last 0).2 = 0 →
    (∀ b, curr ≤ b → b < last → vis b = 0)
    ∧ (curr ≤ last → (fillChunk vis fits curr last 0).1 = last) := by
  intro fuel
  induction fuel with
  | zero =>
    intro curr hf h0
    have hnl : ¬ curr < last := by omega
    have heq : fillChunk vis fits curr last 0 = (curr, 0) := by
      rw [fillChunk.eq_def, dif_neg hnl]
    constructor
    · intro b hb1 hb2
      exact absurd hb2 (by omega)
    · intro hcl
      rw [heq]
      omega
  | succ n ih =>
    intro curr hf h0
    by_cases h1 : curr < last
    · have hstep : fillChunk vis fits curr last 0
          = fillChunk vis fits (curr + 1) last (0 + vis curr) := by
        rw [fillChunk.eq_def, dif_pos h1, if_pos (hfit curr)]
      rw [hstep] at h0
      have hge := fillChunk_snd_ge vis fits (curr + 1) last (0 + vis curr)
      have hv : vis curr = 0 := by omega
      rw [show 0 + vis curr = 0 by omega] at h0 hstep
      obtain ⟨hz, hfst⟩ := ih (curr + 1) (by omega) h0
      constructor
      · intro b hb1 hb2
        rcases Nat.eq_or_lt_of_le hb1 with hbe | hbl
        · rw [← hbe]; exact hv
        · exact hz b (by omega) hb2
      · intro _
        rw [hstep]
        exact hfst (by omega)
    · have hnl : ¬ curr < last := h1
      have heq : fillChunk vis fits curr last 0 = (curr, 0) := by
        rw [fillChunk.eq_def, dif_neg hnl]
      constructor
      · intro b hb1 hb2
        exact absurd hb2 (by omega)
      · intro hcl
        rw [heq]
        omega

/-! ## Claim theorems -/

/-- Claim C10 (confirmed): `deform_gpuscan_info` is a left inverse of
`form_gpuscan_info` — storing a `GpuScanInfo` into the
custom_private/custom_exprs lists and reading it back returns the
same kern_source, extra_flags, func_defs, used_params, used_vars,
dev_quals, base_fixed_width, proj_fixed_width and proj_extra_width. -/
theorem deform_form_roundtrip {α : Type} (gs_info : GpuScanInfo α) :
    deform_gpuscan_info (form_gpuscan_info gs_info) = gs_info := rfl

/-- Claim C9 (code bug): a task created in row format without device
projection has no destination store, yet `gpuscan_next_tuple`
dereferences `pds_dst->kds` before any NULL check — on such a task
the very first drain attempt reads through a NULL pointer instead of
returning rows (the creation-time comment says such rows were meant
to be fetched from `pds_src` via `kern_resultbuf`). -/
theorem next_tuple_null_dst_deref :
    (create_pgstrom_gpuscan_task true false [3] 100).pds_dst = none
    ∧ gpuscan_next_tuple (create_pgstrom_gpuscan_task true false [3] 100).pds_dst 0
        = Except.error CError.nullPointerDeref :=
  ⟨rfl, rfl⟩

/-- Claim C4 (confirmed): after one call to
`gpuscan_cleanup_cuda_resources` every event handle, kernel-function
pointer and device-memory handle of the task is NULL/zero, and a
second call destroys no event and frees no device memory (it returns
the same all-NULL state with an empty effect list). -/
theorem cleanup_idempotent (r : GpuscanResources) :
    (gpuscan_cleanup_cuda_resources r).1 = initResources
    ∧ gpuscan_cleanup_cuda_resources (gpuscan_cleanup_cuda_resources r).1
        = (initResources, []) :=
  ⟨rfl, rfl⟩

/-- Claim C3 (confirmed): for every projection target list compiled
for slot format, and under the alignment regime the generated code
establishes (each emitted alignment divides MAXIMUM_ALIGNOF and the
variable-length buffer starts at a maxaligned position), the per-row
byte total accumulated by the generated sizing pass equals the total
the generated write pass advances `vl_buf` by — same traversal order,
same per-entry null checks, numeric and fixed-length indirect cases
included. -/
theorem projection_sizing_matches_write (tlist : List ProjEntry) (p0 : Nat)
    (hal : ∀ e ∈ tlist, 0 < entryAlign e ∧ entryAlign e ∣ maximum_alignof)
    (hp : p0 % maximum_alignof = 0) :
    vlbufWritePass tlist p0 = p0 + vlbufSizePass tlist 0 := by
  have h8 : maximum_alignof ∣ p0 := Nat.dvd_of_mod_eq_zero hp
  have hal2 : ∀ e ∈ tlist, 0 < entryAlign e ∧ entryAlign e ∣ p0 :=
    fun e he => ⟨(hal e he).1, dvd_trans (hal e he).2 h8⟩
  have := vlbufPass_shift tlist p0 hal2 0
  simpa using this

theorem projection_sizing_matches_write_witness :
    ((∀ e ∈ [ProjEntry.numericEntry 6 false, ProjEntry.fixedEntry 8 8 false,
             ProjEntry.byvalEntry false, ProjEntry.fixedEntry 4 4 true],
        0 < entryAlign e ∧ entryAlign e ∣ maximum_alignof)
      ∧ 16 % maximum_alignof = 0)
    ∧ vlbufWritePass [ProjEntry.numericEntry 6 false, ProjEntry.fixedEntry 8 8 false,
             ProjEntry.byvalEntry false, ProjEntry.fixedEntry 4 4 true] 16
        = 16 + vlbufSizePass [ProjEntry.numericEntry 6 false, ProjEntry.fixedEntry 8 8 false,
             ProjEntry.byvalEntry false, ProjEntry.fixedEntry 4 4 true] 0 :=
  ⟨⟨by decide, by decide⟩,
   projection_sizing_matches_write _ 16 (by decide) (by decide)⟩

/-- Claim C8 counterexample: a pseudoconstant restriction clause is
assigned to one of the two RestrictInfo lists but
`extract_actual_clauses(..., false)` then drops it, so it reaches
neither the plan qual nor the device qualifier list — the claim's
"no clause is dropped from both lists" fails at this input. -/
theorem clause_partition_counterexample :
    (create_gpuscan_plan_quals (fun _ : Nat => false)
        [{ clause := 0, pseudoconstant := true }]).host_quals = []
    ∧ (create_gpuscan_plan_quals (fun _ : Nat => false)
        [{ clause := 0, pseudoconstant := true }]).dev_quals = [] :=
  ⟨rfl, rfl⟩

/-- Claim C8 (corrected): every non-pseudoconstant restriction clause
supplied to `create_gpuscan_plan` ends up in exactly one of the two
bare-expression lists — `dev_quals` when
`pgstrom_codegen_available_expression` accepts it, the plan qual
(host list) otherwise — while pseudoconstant clauses are dropped from
both reduced lists ("ignore pseudoconstants"). -/
theorem clause_partition_amended {β : Type} (available : β → Bool)
    (clauses : List (RestrictInfo β)) :
    (create_gpuscan_plan_quals available clauses).host_quals
      = (clauses.filter
          (fun r => !(available r.clause) && (r.pseudoconstant == false))).map
            RestrictInfo.clause
    ∧ (create_gpuscan_plan_quals available clauses).dev_quals
      = (clauses.filter
          (fun r => available r.clause && (r.pseudoconstant == false))).map
            RestrictInfo.clause
    ∧ ∀ r ∈ clauses, r.pseudoconstant = false →
        (available r.clause = true →
          r.clause ∈ (create_gpuscan_plan_quals available clauses).dev_quals
          ∧ r.clause ∉ (create_gpuscan_plan_quals available clauses).host_quals)
        ∧ (available r.clause = false →
          r.clause ∈ (create_gpuscan_plan_quals available clauses).host_quals
          ∧ r.clause ∉ (create_gpuscan_plan_quals available clauses).dev_quals) := by
  have hh : (create_gpuscan_plan_quals available clauses).host_quals
      = (clauses.filter
          (fun r => !(available r.clause) && (r.pseudoconstant == false))).map
            RestrictInfo.clause := by
    simp [create_gpuscan_plan_quals, extract_actual_clauses, List.filter_filter]
    congr 1
    exact List.filter_congr (fun x _ => by rw [Bool.and_comm])
  have hd : (create_gpuscan_plan_quals available clauses).dev_quals
      = (clauses.filter
          (fun r => available r.clause && (r.pseudoconstant == false))).map
            RestrictInfo.clause := by
    simp [create_gpuscan_plan_quals, extract_actual_clauses, List.filter_filter]
    congr 1
    exact List.filter_congr (fun x _ => by rw [Bool.and_comm])
  refine ⟨hh, hd, ?_⟩
  intro r hr hpc
  constructor
  · intro hav
    constructor
    · rw [hd]
      exact List.mem_map.mpr
        ⟨r, List.mem_filter.mpr ⟨hr, by simp [hav, hpc]⟩, rfl⟩
    · rw [hh]
      intro hmem
      obtain ⟨rr, hrr, hclause⟩ := List.mem_map.mp hmem
      have h2 := (List.mem_filter.mp hrr).2
      rw [hclause] at h2
      simp [hav] at h2
  · intro hav
    constructor
    · rw [hh]
      exact List.mem_map.mpr
        ⟨r, List.mem_filter.mpr ⟨hr, by simp [hav, hpc]⟩, rfl⟩
    · rw [hd]
      intro hmem
      obtain ⟨rr, hrr, hclause⟩ := List.mem_map.mp hmem
      have h2 := (List.mem_filter.mp hrr).2
      rw [hclause] at h2
      simp [hav] at h2

theorem clause_partition_amended_witness :
    (({ clause := 2, pseudoconstant := false } : RestrictInfo Nat)
        ∈ ([{ clause := 2, pseudoconstant := false },
            { clause := 3, pseudoconstant := false },
            { clause := 5, pseudoconstant := true }] : List (RestrictInfo Nat))
      ∧ (2 % 2 == 0) = true)
    ∧ (2 ∈ (create_gpuscan_plan_quals (fun n => n % 2 == 0)
          [{ clause := 2, pseudoconstant := false },
           { clause := 3, pseudoconstant := false },
           { clause := 5, pseudoconstant := true }]).dev_quals
       ∧ 2 ∉ (create_gpuscan_plan_quals (fun n => n % 2 == 0)
          [{ clause := 2, pseudoconstant := false },
           { clause := 3, pseudoconstant := false },
           { clause := 5, pseudoconstant := true }]).host_quals) :=
  ⟨⟨by decide, by decide⟩,
   ((clause_partition_amended (fun n => n % 2 == 0)
      [{ clause := 2, pseudoconstant := false },
       { clause := 3, pseudoconstant := false },
       { clause := 5, pseudoconstant := true }]).2.2
      { clause := 2, pseudoconstant := false } (by decide) rfl).1 rfl⟩

/-- Claim C5 (confirmed): `gpuscan_next_chunk` returns a NULL task
exactly when no rows could be gathered and the block cursor has
reached the end of the relation (in which case the cursor equals the
last block number); with zero blocks the very first call returns
NULL, and an empty chunk with unread blocks left is retried inside
the call, not reported as end of scan.  The hypothesis says a block
always fits a freshly created (empty) chunk. -/
theorem next_chunk_none_iff_end (vis : Nat → Nat) (fits : Nat → Nat → Bool)
    (curr last : Nat) (hfit : ∀ b, fits b 0 = true) (hcl : curr ≤ last) :
    ((gpuscan_next_chunk vis fits curr last).1 = none
       ↔ ∀ b, curr ≤ b → b < last → vis b = 0)
    ∧ ((gpuscan_next_chunk vis fits curr last).1 = none
       → (gpuscan_next_chunk vis fits curr last).2 = last) := by
  have hnl : ¬ last < curr := by omega
  have hfuel : last + 1 - curr = (last - curr) + 1 := by omega
  have hloop : gpuscan_next_chunk vis fits curr last
      = gpuscan_next_chunk_loop vis fits curr last ((last - curr) + 1) := by
    unfold gpuscan_next_chunk
    rw [if_neg hnl, hfuel]
  rw [hloop]
  simp only [gpuscan_next_chunk_loop]
  by_cases h2 : (fillChunk vis fits curr last 0).2 > 0
  · rw [if_pos h2]
    constructor
    · constructor
      · intro hnone
        simp at hnone
      · intro hz
        exfalso
        have hall := fillChunk_all_zero vis fits last hfit
          (last - curr) curr (Nat.le_refl _) hcl hz
        rw [hall] at h2
        simp at h2
    · intro hnone
      simp at hnone
  · rw [if_neg h2]
    have h0 : (fillChunk vis fits curr last 0).2 = 0 := by omega
    obtain ⟨hz, hfst⟩ := fillChunk_zero_out vis fits last hfit
      (last - curr) curr (Nat.le_refl _) h0
    have hrl : (fillChunk vis fits curr last 0).1 = last := hfst hcl
    rw [if_pos (Nat.le_of_eq hrl.symm)]
    exact ⟨⟨fun _ => hz, fun _ => rfl⟩, fun _ => hrl⟩

theorem next_chunk_none_iff_end_witness :
    ((∀ b, (fun _ _ => true : Nat → Nat → Bool) b 0 = true) ∧ 0 ≤ 2)
    ∧ (((gpuscan_next_chunk (fun _ => 0) (fun _ _ => true) 0 2).1 = none
        ↔ ∀ b, 0 ≤ b → b < 2 → (fun _ => 0 : Nat → Nat) b = 0)
       ∧ ((gpuscan_next_chunk (fun _ => 0) (fun _ _ => true) 0 2).1 = none
          → (gpuscan_next_chunk (fun _ => 0) (fun _ _ => true) 0 2).2 = 2)) :=
  ⟨⟨fun _ => rfl, by omega⟩,
   next_chunk_none_iff_end (fun _ => 0) (fun _ _ => true) 0 2
     (fun _ => rfl) (by omega)⟩

/-- Claim C1 counterexample: on a submitted task with a destination
chunk (and device qualifiers, perfmon off) the stream trace is not
the claimed five-phase sequence — the code also enqueues an async
copy-in of the destination store's buffer header between the input
chunk copy-in and the kernel launches. -/
theorem stream_command_order_counterexample :
    processTrace ⟨true, true, true, false, 16, 8, 8⟩
      ≠ claimedCommandOrder true true := by
  decide

/-- Claim C1 (corrected): on every successful submission the stream
trace, timing-event records aside, is exactly: (1) copy-in of the
control/parameter block, (2) copy-in of the input chunk image, (2b)
copy-in of the destination store's buffer header when a destination
chunk exists, (3) the predicate-evaluation kernel launch when device
qualifiers exist, (4) the projection kernel launch when a destination
chunk exists, (5) copy-out of the control block and, if a destination
chunk exists, of the full output chunk, followed by registration of
the completion callback — so a later phase is never issued before an
earlier one. -/
theorem stream_command_order_amended (inp : ProcessInput)
    (hm : inp.moduleGetOk = true) (ha : inp.allocHandle ≠ 0) :
    (processTrace inp).filter (fun c => !isEventRecordCmd c)
      = amendedCommandOrder inp.hasDevQuals inp.hasDst := by
  rcases inp with ⟨mg, hq, hd, pf, ah, gl, kl⟩
  have hmg : mg = true := hm
  have hah : ¬ ah = 0 := ha
  subst hmg
  cases hq <;> cases hd <;> cases pf <;>
    simp [processTrace, __pgstrom_process_gpuscan, cudaEventRecordCmds,
          amendedCommandOrder, isEventRecordCmd, hah]

theorem stream_command_order_amended_witness :
    ((⟨true, true, true, true, 16, 8, 8⟩ : ProcessInput).moduleGetOk = true
      ∧ (⟨true, true, true, true, 16, 8, 8⟩ : ProcessInput).allocHandle ≠ 0)
    ∧ (processTrace ⟨true, true, true, true, 16, 8, 8⟩).filter
        (fun c => !isEventRecordCmd c)
      = amendedCommandOrder true true :=
  ⟨⟨rfl, by decide⟩,
   stream_command_order_amended ⟨true, true, true, true, 16, 8, 8⟩ rfl (by decide)⟩

/-- Claim C2 (confirmed): with no device qualifiers (a) the generated
`gpuscan_quals_eval` source is the constant-true function, (b) the
task's `kern_resultbuf` is created with `all_visible` set and no
per-row result rooms reserved, and (c) submission enqueues no
predicate-evaluation kernel launch, so every source row is visible to
the projection step. -/
theorem no_dev_quals_all_visible (codegen_expression : List Nat → String)
    (param_decls var_decls : String) (be_row_format dev_projection : Bool)
    (src_nitems : Nat) (inp : ProcessInput) (h : inp.hasDevQuals = false) :
    gpuscan_codegen_exec_quals codegen_expression param_decls var_decls []
        = gpuscan_quals_eval_noquals
    ∧ (create_pgstrom_gpuscan_task be_row_format dev_projection []
        src_nitems).kresults.all_visible = true
    ∧ (create_pgstrom_gpuscan_task be_row_format dev_projection []
        src_nitems).kresults.nrooms = 0
    ∧ StreamCmd.launchKernel KernFn.execQuals ∉ processTrace inp := by
  refine ⟨rfl, rfl, rfl, ?_⟩
  rcases inp with ⟨mg, hq, hd, pf, ah, gl, kl⟩
  have hhq : hq = false := h
  subst hhq
  by_cases hah : ah = 0 <;>
    cases mg <;> cases hd <;> cases pf <;>
      simp [processTrace, __pgstrom_process_gpuscan, cudaEventRecordCmds, hah]

theorem no_dev_quals_all_visible_witness :
    (⟨true, false, true, true, 16, 8, 8⟩ : ProcessInput).hasDevQuals = false
    ∧ (gpuscan_codegen_exec_quals (fun _ => "expr") "params" "vars" []
          = gpuscan_quals_eval_noquals
       ∧ (create_pgstrom_gpuscan_task true true [] 5).kresults.all_visible = true
       ∧ (create_pgstrom_gpuscan_task true true [] 5).kresults.nrooms = 0
       ∧ StreamCmd.launchKernel KernFn.execQuals
           ∉ processTrace ⟨true, false, true, true, 16, 8, 8⟩) :=
  ⟨rfl,
   no_dev_quals_all_visible (fun _ => "expr") "params" "vars" true true 5
     ⟨true, false, true, true, 16, 8, 8⟩ rfl⟩

/-- Claim C6 (confirmed): when `gpuMemAlloc` returns a NULL handle the
submission path raises no error — no stream command has been
enqueued, the task's CUDA resources are released/nulled by the
cleanup routine (nothing was allocated, so nothing is freed or
destroyed), and the routine returns false to its caller for the
retry/deferral path. -/
theorem alloc_failure_returns_false (inp : ProcessInput)
    (hm : inp.moduleGetOk = true) (ha : inp.allocHandle = 0) :
    __pgstrom_process_gpuscan inp
      = Except.ok { status := false, trace := [], res := initResources
                  , effects := [] } := by
  rcases inp with ⟨mg, hq, hd, pf, ah, gl, kl⟩
  have hmg : mg = true := hm
  have hah : ah = 0 := ha
  subst hmg
  subst hah
  rfl

theorem alloc_failure_returns_false_witness :
    ((⟨true, true, true, false, 0, 4, 4⟩ : ProcessInput).moduleGetOk = true
      ∧ (⟨true, true, true, false, 0, 4, 4⟩ : ProcessInput).allocHandle = 0)
    ∧ __pgstrom_process_gpuscan ⟨true, true, true, false, 0, 4, 4⟩
        = Except.ok { status := false, trace := [], res := initResources
                    , effects := [] } :=
  ⟨⟨rfl, rfl⟩,
   alloc_failure_returns_false ⟨true, true, true, false, 0, 4, 4⟩ rfl rfl⟩

/-- Claim C7 (confirmed): invoked with `CUDA_ERROR_INVALID_CONTEXT` or
outside a live transaction, the completion callback changes nothing;
in every other case it records the task's error status (the
device-reported error on `CUDA_SUCCESS`, a synthesized CUDA-runtime
error otherwise), unlinks the task from the running list when it was
linked, and moves it to the completed list — failed tasks at the
head, successful tasks at the tail — incrementing the completed
counter. -/
theorem respond_callback_behavior (status : Int) (in_transaction : Bool)
    (task_id : Nat) (task : RespondTaskState) (gts : RespondGtsState) :
    pgstrom_respond_gpuscan status in_transaction task_id task gts
      = if status = CUDA_ERROR_INVALID_CONTEXT ∨ in_transaction = false then
          (task, gts)
        else
          ({ task with
              kerror :=
                if status = CUDA_SUCCESS then task.kern_kerror
                else { errcode := status, kernel := StromKernel_CudaRuntime
                     , lineno := 0 }
              chainLinked := true },
           { num_running_tasks :=
               if task.chainLinked then gts.num_running_tasks - 1
               else gts.num_running_tasks
             completed_tasks :=
               if (if status = CUDA_SUCCESS then task.kern_kerror.errcode
                   else status) = StromError_Success
               then gts.completed_tasks ++ [task_id]
               else task_id :: gts.completed_tasks
             num_completed_tasks := gts.num_completed_tasks + 1 }) := by
  unfold pgstrom_respond_gpuscan
  by_cases hg : status = CUDA_ERROR_INVALID_CONTEXT ∨ in_transaction = false
  · rw [if_pos hg, if_pos hg]
  · rw [if_neg hg, if_neg hg]
    by_cases hs : status = CUDA_SUCCESS <;>
      by_cases hc : task.chainLinked <;>
        simp only [hs, hc, if_true, if_false, ite_true, ite_false] <;>
          by_cases he : (if status = CUDA_SUCCESS then task.kern_kerror.errcode
              else status) = StromError_Success <;>
            simp_all

end PgStrom
